import Mathlib

/-!
Shallow embedding of the client-side blog pipeline implemented in
src/js/main.js of the repository eight42910/my-intro-project, together
with proofs about the behaviour that the specification describes.

Modelling conventions:
* JS strings are Lean strings; the method toLowerCase is modelled by
  mapping the simple lower-case function over the characters, and the
  method includes is modelled by contiguous containment of the
  character lists.
* The date field of a post is a string that the code always feeds
  through the Date constructor and then compares numerically; the
  embedding keeps the parsed timestamp directly, as an integer count of
  milliseconds since the epoch.
* The outcome of a fetch call is reified as an explicit value; an
  exception caught by a try/catch block becomes an Except value.
* A DOM write is modelled by the HTML string assigned to the target
  container; the locale-dependent date formatting performed by
  toLocaleDateString is a parameter of the rendering functions.
-/

namespace Blog

/-- One blog entry, as read from the posts JSON document
(src/js/main.js lines 256-263). The date field holds the parsed
timestamp of the date string. -/
structure Post where
  id : Int
  title : String
  body : String
  date : Int
  author : String
  category : String
  deriving DecidableEq, Repr

/-- One comment of the detail view, as returned by the comment service
(src/js/main.js lines 1270-1275). -/
structure Comment where
  name : String
  body : String
  email : String
  deriving DecidableEq, Repr

/-- Scroll settings of the CONFIG object (src/js/main.js lines 25-30). -/
structure ScrollConfig where
  threshold : ℚ
  headerOpacityMax : ℚ
  headerOpacityMin : ℚ
  buttonShowThreshold : ℚ

/-- Blog settings of the CONFIG object (src/js/main.js lines 32-36). -/
structure BlogConfig where
  defaultSortOrder : String
  defaultFilter : String
  postsPerPage : Nat

/-- Shape of the CONFIG object (src/js/main.js lines 23-37). -/
structure Config where
  scroll : ScrollConfig
  blog : BlogConfig

/-- The CONFIG constant (src/js/main.js lines 23-37). -/
def CONFIG : Config :=
  { scroll :=
      { threshold := 100
        headerOpacityMax := 0.9
        headerOpacityMin := 0.6
        buttonShowThreshold := 100 }
    blog :=
      { defaultSortOrder := "newest"
        defaultFilter := "all"
        postsPerPage := 10 } }

/-- The method calculateOpacity of UIController (src/js/main.js lines
150-158): clamp the value 1 - scrollTop / threshold into the band given
by the configured minimum and maximum opacities. The scroll threshold
is read from CONFIG in the constructor (line 112). -/
def calculateOpacity (scrollTop : ℚ) : ℚ :=
  min CONFIG.scroll.headerOpacityMax
    (max CONFIG.scroll.headerOpacityMin (1 - scrollTop / CONFIG.scroll.threshold))

/-- Result of the fetch of the posts JSON document as observed by
fetchPosts: either the request itself fails, or a response arrives with
its ok flag and, when the body parses to the expected shape, the
decoded posts array. -/
inductive FetchOutcome where
  | networkError (message : String)
  | response (ok : Bool) (body : Option (List Post))
  deriving Repr

/-- The synthetic fallback post installed on any fetch failure
(src/js/main.js lines 255-264); the argument is the timestamp taken at
failure time. -/
def fallbackPost (now : Int) : Post :=
  { id := 1
    title := "エラーが発生しました"
    body := "データの読み込みに失敗しました。"
    date := now
    author := "システム"
    category := "エラー" }

/-- The method fetchPosts of BlogPostManager (src/js/main.js lines
247-266): on a response with the ok flag set and a body in the expected
shape, store the posts; any throw inside the try block, that is a
network error, a response without the ok flag, or a malformed body, is
caught and the store is replaced by the single fallback post. -/
def fetchPosts (outcome : FetchOutcome) (now : Int) : List Post :=
  match outcome with
  | .response true (some posts) => posts
  | .response true none => [fallbackPost now]
  | .response false _ => [fallbackPost now]
  | .networkError _ => [fallbackPost now]

/-- Tests whether the fetch outcome is one of the failure cases handled
by the catch block of fetchPosts. -/
def fetchFailed : FetchOutcome → Bool
  | .response true (some _) => false
  | _ => true

/-- Model of the JS string method toLowerCase: lower-case every
character. -/
def toLowerCase (s : String) : String := ⟨s.data.map Char.toLower⟩

/-- Model of the JS string method call s.includes(t): the characters of
t occur contiguously inside the characters of s. -/
def includes (s t : String) : Bool := decide (t.data <:+: s.data)

/-- The view computed by the method filterByCategory of BlogPostManager
(src/js/main.js lines 351-358): all posts when the selected category is
"all", otherwise only the posts whose category field equals the
selected one. -/
def filterByCategory (posts : List Post) (category : String) : List Post :=
  if category = "all" then posts
  else posts.filter (fun post => post.category == category)

/-- The view computed by the search input handler installed by
setupSearchFeature (src/js/main.js lines 370-377): lower-case the typed
value and keep the posts whose lower-cased title or lower-cased body
contains it. The draft filterAndRenderPosts (lines 1322-1330) applies
the same filter to a term its caller has already lower-cased. -/
def searchPosts (posts : List Post) (value : String) : List Post :=
  let term := toLowerCase value
  posts.filter (fun post =>
    includes (toLowerCase post.title) term || includes (toLowerCase post.body) term)

/-- The comparator passed to the array sort call in the method
sortPosts (src/js/main.js lines 416-420), recast as the relation "a may
stay before b" of a stable sort: a stays before b exactly when the
comparator applied to a and b is not positive. -/
def sortLe (sortOrder : String) (a b : Post) : Bool :=
  if sortOrder = "newest" then decide (b.date ≤ a.date) else decide (a.date ≤ b.date)

/-- The view computed by the method sortPosts of BlogPostManager
(src/js/main.js lines 415-422): sort a copy of the stored posts by
parsed date, descending for "newest" and ascending otherwise. The
ECMAScript array sort is required to be stable, which List.mergeSort
models. -/
def sortPosts (posts : List Post) (sortOrder : String) : List Post :=
  posts.mergeSort (sortLe sortOrder)

/-- The placeholder written when the joined post HTML is the empty
string (src/js/main.js line 300). -/
def emptyPostsHTML : String := "<p>投稿がありません。</p>"

/-- Leading literal of one article block of the listing. -/
def articleHead : String := "\n      <article class=\"blog-post\" data-post-id=\""

/-- One article block of the listing (src/js/main.js lines 281-296);
the formatDate argument abstracts the locale rendering of the date
performed by utils.formatDate. -/
def postArticleHTML (formatDate : Int → String) (post : Post) : String :=
  articleHead ++
    (toString post.id ++
      ("\">\n        <h3>" ++
        (post.title ++
          ("</h3>\n        <div class=\"post-meta-header\">\n          <span class=\"category\">" ++
            (post.category ++
              ("</span>\n          <span class=\"author\">投稿者: " ++
                (post.author ++
                  ("</span>\n        </div>\n        <p>" ++
                    (post.body ++
                      ("</p>\n        <div class=\"post-meta\">\n          <time datetime=\"" ++
                        (toString post.date ++
                          ("\">" ++
                            (formatDate post.date ++
                              ("</time>\n          <button class=\"read-more-btn\" data-post-id=\"" ++
                                (toString post.id ++
                                  "\">続きを読む</button>\n        </div>\n      </article>\n    ")))))))))))))))

/-- The method renderPosts of BlogPostManager (src/js/main.js lines
275-301): the string assigned to the post container; the JS or-else
falls back to the placeholder exactly when the joined string is
empty. -/
def renderPosts (formatDate : Int → String) (posts : List Post) : String :=
  let postsHTML := String.join (posts.map (postArticleHTML formatDate))
  if postsHTML = "" then emptyPostsHTML else postsHTML

/-- The renderPosts method of the draft manager without the fallback
(src/js/main.js lines 1174-1202): the joined article blocks are
assigned to the container as they are. -/
def renderPostsSimple (formatDate : Int → String) (posts : List Post) : String :=
  String.join (posts.map (postArticleHTML formatDate))

/-- The no-results fragment written by renderFilteredPosts
(src/js/main.js lines 1338-1342). -/
def noResultsHTML : String :=
  "\n        <div class=\"no-results\">\n          <p>検索結果が見つかりませんでした。</p>\n        </div>\n      "

/-- The method renderFilteredPosts of the draft manager
(src/js/main.js lines 1333-1347): write the no-results fragment when
the filtered list is empty, otherwise delegate to the plain renderer of
the same class. -/
def renderFilteredPosts (formatDate : Int → String) (filteredPosts : List Post) : String :=
  if filteredPosts.length = 0 then noResultsHTML
  else renderPostsSimple formatDate filteredPosts

/-- The method filterAndRenderPosts of the draft manager
(src/js/main.js lines 1322-1330); its caller passes the search term
already lower-cased (line 1316). -/
def filterAndRenderPosts (formatDate : Int → String) (posts : List Post)
    (searchTerm : String) : String :=
  renderFilteredPosts formatDate
    (posts.filter (fun post =>
      includes (toLowerCase post.title) searchTerm ||
        includes (toLowerCase post.body) searchTerm))

/-- The method renderComments (src/js/main.js lines 1267-1279): one
block per comment, joined with the empty separator. -/
def renderComments (comments : List Comment) : String :=
  String.join (comments.map (fun comment =>
    "\n      <div class=\"comment\">\n        <h4>" ++
      (comment.name ++
        ("</h4>\n        <p>" ++
          (comment.body ++
            ("</p>\n        <small>" ++
              (comment.email ++ "</small>\n      </div>\n    ")))))))

/-- The method renderPostsDetail (src/js/main.js lines 1245-1265). Its
first statement reads the property named document on the manager
instance, but no such property is ever assigned on the class; the rest
of the file uses the global document object, for example on line 1263.
The property access on an undefined value therefore throws a TypeError
before any modal HTML is built or inserted. -/
def renderPostsDetail (_post : Post) (_comments : List Comment) : Except String String :=
  Except.error "TypeError: this.document is undefined"

/-- Observable outcome of showPostDetail: either the error path of its
catch block, which logs the error to the console and leaves the
document unchanged with the detail view closed, or a modal appended to
the document body with the given HTML. -/
inductive DetailOutcome where
  | errorLogged (message : String)
  | modalInserted (html : String)
  deriving DecidableEq, Repr

/-- The method showPostDetail of the draft manager (src/js/main.js
lines 1227-1243): look the requested post up in the store by id; when
it is absent, throw, which the catch block turns into a logged error
with nothing rendered. When it is present, await the comment fetch,
reified here by the commentsResult argument, and call
renderPostsDetail; any throw along the way lands in the same catch
block. -/
def showPostDetail (posts : List Post) (postId : Int)
    (commentsResult : Except String (List Comment)) : DetailOutcome :=
  match posts.find? (fun post => post.id == postId) with
  | none => .errorLogged "投稿が見つかりません"
  | some post =>
    match commentsResult with
    | .error e => .errorLogged e
    | .ok comments =>
      match renderPostsDetail post comments with
      | .error e => .errorLogged e
      | .ok html => .modalInserted html

/-- The private state of BlogPostManager (src/js/main.js lines
201-206), restricted to the fields the handlers below read or write;
the derived category set is only used to populate the selection
control and is not modelled. -/
structure BlogState where
  posts : List Post
  currentFilter : String
  sortOrder : String

/-- One user action on one of the three listing controls. -/
inductive ControlEvent where
  | categoryChange (category : String)
  | searchInput (value : String)
  | sortChange (sortOrder : String)

/-- Effect of one control event on the manager state, paired with the
post list handed to renderPosts:
the category change handler (src/js/main.js lines 337-339 and 351-358)
stores the selected filter and renders the category filter of the full
store; the search input handler (lines 370-377) renders the search
filter of the full store and stores nothing; the sort change handler
(lines 398-401 and 415-422) stores the selected order and renders the
sorted copy of the full store. -/
def handleControlEvent (s : BlogState) : ControlEvent → BlogState × List Post
  | .categoryChange category =>
    ({ s with currentFilter := category }, filterByCategory s.posts category)
  | .searchInput value => (s, searchPosts s.posts value)
  | .sortChange sortOrder =>
    ({ s with sortOrder := sortOrder }, sortPosts s.posts sortOrder)

/-- Fold a sequence of control events through the manager state. -/
def runEvents (s : BlogState) : List ControlEvent → BlogState
  | [] => s
  | e :: rest => runEvents (handleControlEvent s e).1 rest

/-- The ViewState record of the specification, section 3. -/
structure ViewState where
  activeCategory : String
  searchTerm : String
  sortOrder : String

/-- Modelled from the spec, section 4.2: the view obtained by applying
the category step, the search step and the sort step together. Written
from the words of the specification, to be compared with the handlers
embedded above from the source. -/
def applySpec (posts : List Post) (v : ViewState) : List Post :=
  sortPosts (searchPosts (filterByCategory posts v.activeCategory) v.searchTerm) v.sortOrder

/-- Sample post in the category "tech"; its title and body do not
contain the letter x. -/
def postTech : Post :=
  { id := 1, title := "alpha", body := "hello", date := 100, author := "a", category := "tech" }

/-- Sample post in the category "life"; its title contains the
letter x. -/
def postLife : Post :=
  { id := 2, title := "xray", body := "world", date := 200, author := "b", category := "life" }

/-- Sample post with id 1 for the detail-view scenario. -/
def storedPost : Post :=
  { id := 1, title := "T", body := "Bo", date := 100, author := "au", category := "cat" }

/-- Sample comment for the detail-view scenario. -/
def commentA : Comment := { name := "A", body := "B", email := "c@d.com" }

/-- Sample posts with equal dates for the stability witness. -/
def samePostA : Post :=
  { id := 1, title := "a", body := "aa", date := 50, author := "x", category := "c" }

/-- Second sample post with the same date as the first. -/
def samePostB : Post :=
  { id := 2, title := "b", body := "bb", date := 50, author := "y", category := "d" }

/-- The empty character list occurs in every character list. -/
lemma isInfixNil (l : List Char) : [] <:+: l := ⟨[], l, by simp⟩

/-- A string with a non-empty left part is non-empty. -/
lemma append_ne_empty_left (s t : String) (h : s ≠ "") : s ++ t ≠ "" := by
  intro heq
  have hd := congrArg String.data heq
  simp at hd
  exact h (String.ext hd.1)

/-- Joining a list of strings whose head is non-empty gives a
non-empty string. -/
lemma join_ne_empty_of_head (s : String) (rest : List String) (h : s ≠ "") :
    String.join (s :: rest) ≠ "" := by
  intro heq
  have hd : ((s :: rest).map String.data).flatten = ([] : List Char) := by
    have h2 := congrArg String.data heq
    rwa [String.join_eq] at h2
  simp at hd
  exact h (String.ext hd.1)

/-- An article block always starts with its fixed leading literal, so
it is never the empty string. -/
lemma postArticleHTML_ne_empty (formatDate : Int → String) (post : Post) :
    postArticleHTML formatDate post ≠ "" :=
  append_ne_empty_left articleHead _ (by decide)

/-- The sort relation of the date comparator is transitive. -/
lemma sortLe_trans (sortOrder : String) :
    ∀ a b c : Post, sortLe sortOrder a b → sortLe sortOrder b c → sortLe sortOrder a c := by
  intro a b c hab hbc
  unfold sortLe at *
  by_cases h : sortOrder = "newest" <;> simp [h] at * <;> omega

/-- The sort relation of the date comparator is total. -/
lemma sortLe_total (sortOrder : String) :
    ∀ a b : Post, sortLe sortOrder a b || sortLe sortOrder b a := by
  intro a b
  unfold sortLe
  by_cases h : sortOrder = "newest" <;> simp [h] <;> omega

/-- C10: for every scroll position, the header opacity computed by
calculateOpacity lies in the closed interval between the configured
minimum opacity 0.6 and maximum opacity 0.9, so values outside that
band are unreachable. -/
theorem calculateOpacity_within_bounds (scrollTop : ℚ) :
    CONFIG.scroll.headerOpacityMin = 0.6 ∧
      CONFIG.scroll.headerOpacityMax = 0.9 ∧
      (0.6 : ℚ) ≤ calculateOpacity scrollTop ∧
      calculateOpacity scrollTop ≤ 0.9 := by
  refine ⟨rfl, rfl, ?_, ?_⟩
  · show (0.6 : ℚ) ≤ min 0.9 (max 0.6 (1 - scrollTop / 100))
    exact le_min (by norm_num) (le_max_left _ _)
  · show min (0.9 : ℚ) (max 0.6 (1 - scrollTop / 100)) ≤ 0.9
    exact min_le_left _ _

/-- C4: with the selected category different from "all", the category
filter retains a post exactly when the category field of the post
equals the selected category, by exact string comparison; with "all"
every post of the input passes through unchanged. -/
theorem filterByCategory_exact_match (posts : List Post) (category : String)
    (post : Post) (h : category ≠ "all") :
    (post ∈ filterByCategory posts category ↔
      post ∈ posts ∧ post.category = category) ∧
    filterByCategory posts "all" = posts := by
  constructor
  · simp [filterByCategory, h]
  · simp [filterByCategory]

/-- Witness for the category filter theorem at a concrete store and the
concrete category "tech". -/
theorem filterByCategory_exact_match_witness :
    (postTech ∈ filterByCategory [postTech, postLife] "tech" ↔
      postTech ∈ [postTech, postLife] ∧ postTech.category = "tech") ∧
    filterByCategory [postTech, postLife] "all" = [postTech, postLife] :=
  filterByCategory_exact_match [postTech, postLife] "tech" postTech (by decide)

/-- C3: whenever the fetch of the posts document fails, in any of the
three handled ways, the store afterwards holds exactly the single
synthetic post with id 1, the failure title, the sentinel author and
the sentinel error category; in particular the store is not empty and
the failure is absorbed rather than propagated. -/
theorem fetchPosts_failure_fallback (outcome : FetchOutcome) (now : Int)
    (h : fetchFailed outcome = true) :
    fetchPosts outcome now = [fallbackPost now] ∧
      (fetchPosts outcome now).length = 1 ∧
      (fallbackPost now).id = 1 ∧
      (fallbackPost now).title = "エラーが発生しました" ∧
      (fallbackPost now).author = "システム" ∧
      (fallbackPost now).category = "エラー" ∧
      fetchPosts outcome now ≠ [] := by
  have heq : fetchPosts outcome now = [fallbackPost now] := by
    cases outcome with
    | networkError msg => rfl
    | response ok body =>
      cases ok with
      | false => rfl
      | true =>
        cases body with
        | none => rfl
        | some posts => simp [fetchFailed] at h
  refine ⟨heq, by rw [heq]; rfl, rfl, rfl, rfl, rfl, by rw [heq]; simp⟩

/-- Witness for the fetch failure theorem at a concrete network
error. -/
theorem fetchPosts_failure_fallback_witness :
    fetchPosts (FetchOutcome.networkError "network down") 0 = [fallbackPost 0] ∧
      (fetchPosts (FetchOutcome.networkError "network down") 0).length = 1 ∧
      (fallbackPost 0).id = 1 ∧
      (fallbackPost 0).title = "エラーが発生しました" ∧
      (fallbackPost 0).author = "システム" ∧
      (fallbackPost 0).category = "エラー" ∧
      fetchPosts (FetchOutcome.networkError "network down") 0 ≠ [] :=
  fetchPosts_failure_fallback (FetchOutcome.networkError "network down") 0 (by decide)

/-- C5: the search step retains a post exactly when the lower-cased
search value occurs as a contiguous substring of the lower-cased title
or of the lower-cased body, and with the empty search value the search
step is the identity on the stored posts. -/
theorem searchPosts_substring_match (posts : List Post) (value : String)
    (post : Post) :
    (post ∈ searchPosts posts value ↔
      post ∈ posts ∧
        ((toLowerCase value).data <:+: (toLowerCase post.title).data ∨
          (toLowerCase value).data <:+: (toLowerCase post.body).data)) ∧
    searchPosts posts "" = posts := by
  constructor
  · simp [searchPosts, includes]
  · apply List.filter_eq_self.mpr
    intro p _
    have hempty : toLowerCase "" = "" := rfl
    simp [includes, hempty]

/-- C6: the date sort is stable under both orders: two posts with equal
parsed timestamps keep, in the sorted output, the relative order they
had in the input. -/
theorem sortPosts_stable (posts : List Post) (sortOrder : String) (a b : Post)
    (hdate : a.date = b.date) (hsub : List.Sublist [a, b] posts) :
    List.Sublist [a, b] (sortPosts posts sortOrder) := by
  apply List.pair_sublist_mergeSort (sortLe_trans sortOrder) (sortLe_total sortOrder)
    ?_ hsub
  unfold sortLe
  by_cases h : sortOrder = "newest" <;> simp [h, hdate]

/-- Witness for the stability theorem at a concrete pair of posts with
equal dates, under the order "newest". -/
theorem sortPosts_stable_witness :
    List.Sublist [samePostA, samePostB] (sortPosts [samePostA, samePostB] "newest") :=
  sortPosts_stable [samePostA, samePostB] "newest" samePostA samePostB
    (by decide) (by decide)

/-- C7: rendering an empty post sequence writes the designated
placeholder, and the filtered renderer writes the designated no-results
fragment; both fragments are non-empty, and neither renderer ever
writes the empty string into the container. -/
theorem rendering_empty_shows_placeholder (formatDate : Int → String) :
    renderPosts formatDate [] = emptyPostsHTML ∧
      emptyPostsHTML ≠ "" ∧
      renderFilteredPosts formatDate [] = noResultsHTML ∧
      noResultsHTML ≠ "" ∧
      (∀ posts : List Post, renderPosts formatDate posts ≠ "") ∧
      (∀ filteredPosts : List Post, renderFilteredPosts formatDate filteredPosts ≠ "") := by
  refine ⟨rfl, by decide, rfl, by decide, ?_, ?_⟩
  · intro posts
    show (if String.join (posts.map (postArticleHTML formatDate)) = ""
      then emptyPostsHTML
      else String.join (posts.map (postArticleHTML formatDate))) ≠ ""
    split
    · decide
    · next h => exact h
  · intro filteredPosts
    cases filteredPosts with
    | nil =>
      show noResultsHTML ≠ ""
      decide
    | cons p rest =>
      show renderPostsSimple formatDate (p :: rest) ≠ ""
      exact join_ne_empty_of_head _ _ (postArticleHTML_ne_empty formatDate p)

/-- C8: when the requested id matches no post in the store, opening the
detail view reports the lookup error and leaves the view closed: no
modal is inserted, whatever the comment fetch would have returned, so
no comment rendering occurs. -/
theorem showPostDetail_not_found (posts : List Post) (postId : Int)
    (commentsResult : Except String (List Comment))
    (h : ∀ post ∈ posts, post.id ≠ postId) :
    showPostDetail posts postId commentsResult =
        DetailOutcome.errorLogged "投稿が見つかりません" ∧
      ∀ html : String,
        showPostDetail posts postId commentsResult ≠ DetailOutcome.modalInserted html := by
  have hfind : posts.find? (fun post => post.id == postId) = none := by
    apply List.find?_eq_none.mpr
    intro post hmem
    simpa using h post hmem
  constructor
  · unfold showPostDetail
    rw [hfind]
  · intro html
    unfold showPostDetail
    rw [hfind]
    intro hc
    exact DetailOutcome.noConfusion hc

/-- Witness for the lookup failure theorem at a concrete store and the
absent id 99. -/
theorem showPostDetail_not_found_witness :
    showPostDetail [postTech] 99 (Except.ok [commentA]) =
        DetailOutcome.errorLogged "投稿が見つかりません" ∧
      ∀ html : String,
        showPostDetail [postTech] 99 (Except.ok [commentA]) ≠
          DetailOutcome.modalInserted html :=
  showPostDetail_not_found [postTech] 99 (Except.ok [commentA]) (by decide)

/-- C2, evaluated at the scenario the claim describes: the post with id
1 is present and the comment fetch succeeds with the single comment,
yet the read of the undefined document property inside
renderPostsDetail throws, the catch block logs the error, and no modal
is inserted, so the view never reaches the shown state. -/
theorem showPostDetail_success_no_modal :
    showPostDetail [storedPost] 1 (Except.ok [commentA]) =
      DetailOutcome.errorLogged "TypeError: this.document is undefined" := rfl

/-- C9: no sequence of category, search or sort interactions changes
the stored post collection: the handlers only read it and only write
the filter and order fields, so the stored posts keep their elements
and their source order. -/
theorem controlEvents_preserve_posts (events : List ControlEvent) (s : BlogState) :
    (runEvents s events).posts = s.posts := by
  induction events generalizing s with
  | nil => rfl
  | cons e rest ih =>
    cases e with
    | categoryChange category => exact ih _
    | searchInput value => exact ih _
    | sortChange sortOrder => exact ih _

/-- C1 counterexample: with the category filter currently set to
"tech", typing the search value x renders the view computed by the
search step alone over the full store, which differs from the view the
composed pipeline of the specification produces for the same settings:
the code shows the post of category "life" whose title contains x,
while the composed pipeline shows nothing. -/
theorem controlEvents_do_not_compose :
    (handleControlEvent ⟨[postTech, postLife], "tech", "newest"⟩
        (ControlEvent.searchInput "x")).2 ≠
      applySpec [postTech, postLife] ⟨"tech", "x", "newest"⟩ := by
  have hL : (handleControlEvent ⟨[postTech, postLife], "tech", "newest"⟩
      (ControlEvent.searchInput "x")).2 = [postLife] := by decide
  have h1 : filterByCategory [postTech, postLife] "tech" = [postTech] := by decide
  have h2 : searchPosts [postTech] "x" = [] := by decide
  have hR : applySpec [postTech, postLife] ⟨"tech", "x", "newest"⟩ = [] := by
    simp only [applySpec, h1, h2, sortPosts]
    simp [List.mergeSort]
  rw [hL, hR]
  simp

/-- C1 amended: the view rendered after one control interaction is
computed from the full stored collection by the step of that one
control alone; it does not depend on the currently stored category
filter or sort order, so the three steps are not applied together. -/
theorem controlEvent_view_single_step (posts : List Post)
    (filter₁ order₁ filter₂ order₂ : String) (e : ControlEvent) :
    (handleControlEvent ⟨posts, filter₁, order₁⟩ e).2 =
        (handleControlEvent ⟨posts, filter₂, order₂⟩ e).2 ∧
      (∀ category,
        (handleControlEvent ⟨posts, filter₁, order₁⟩
            (ControlEvent.categoryChange category)).2 = filterByCategory posts category) ∧
      (∀ value,
        (handleControlEvent ⟨posts, filter₁, order₁⟩
            (ControlEvent.searchInput value)).2 = searchPosts posts value) ∧
      (∀ sortOrder,
        (handleControlEvent ⟨posts, filter₁, order₁⟩
            (ControlEvent.sortChange sortOrder)).2 = sortPosts posts sortOrder) := by
  refine ⟨?_, fun _ => rfl, fun _ => rfl, fun _ => rfl⟩
  cases e <;> rfl

end Blog
